import Mathlib

/-!
Verification of the school-management REST backend (FastAPI + Supabase).

The Python handlers under server/app/api/v1/endpoints are embedded as pure
Lean functions over an explicit database state.  The remote store
(Supabase) is modelled as lists of typed records; the gateway helpers of
server/app/db/supabase.py (select_by_id, select_one, select_all,
insert_one, insert_many, update_by_id) become list operations.  Monetary
and score values, Python floats in the source, are modelled as exact
rationals; date/datetime values are carried as opaque strings (the
handlers only serialise them).  Identifiers generated by the store are
modelled by a counter threaded through the state.  Display-name
enrichment (extra point lookups that only add human-readable names to the
response) is not modelled: no claim depends on it.
-/

namespace SchoolMgmt

/-- An HTTP error response as raised via HTTPException(status_code, detail). -/
structure HttpError where
  statusCode : Nat
  detail : String
deriving DecidableEq, Repr

/-- UserRole enum from app/models/schemas.py. -/
inductive UserRole
  | admin
  | teacher
  | student
  | parent
  | master
deriving DecidableEq, Repr

/-- The .value of a UserRole member (its string payload). -/
def UserRole.value : UserRole → String
  | .admin => "admin"
  | .teacher => "teacher"
  | .student => "student"
  | .parent => "parent"
  | .master => "master"

/-- UserRole(s): parse a role string, as the Python enum constructor does
(None when the constructor would raise ValueError). -/
def UserRole.ofString : String → Option UserRole
  | "admin" => some .admin
  | "teacher" => some .teacher
  | "student" => some .student
  | "parent" => some .parent
  | "master" => some .master
  | _ => none

/-- LeaveStatus enum from app/models/schemas.py. -/
inductive LeaveStatus
  | pending
  | approved
  | rejected
deriving DecidableEq, Repr

/-- The .value of a LeaveStatus member. -/
def LeaveStatus.value : LeaveStatus → String
  | .pending => "pending"
  | .approved => "approved"
  | .rejected => "rejected"

/-- AttendanceStatus enum from app/models/schemas.py. -/
inductive AttendanceStatus
  | present
  | absent
  | late
  | excused
deriving DecidableEq, Repr

/-- The .value of an AttendanceStatus member. -/
def AttendanceStatus.value : AttendanceStatus → String
  | .present => "present"
  | .absent => "absent"
  | .late => "late"
  | .excused => "excused"

/-- TokenPayload from app/models/schemas.py: the decoded JWT carried by
an authenticated request (exp as a unix timestamp). -/
structure TokenPayload where
  sub : String
  role : UserRole
  exp : Nat
deriving DecidableEq, Repr

/-- A row of the users table. -/
structure UserRec where
  user_id : String
  email : String
  password_hash : String
  role : String
  is_active : Bool
  created_at : String
deriving DecidableEq, Repr

/-- A row of the students table (fields the verified handlers touch). -/
structure StudentRec where
  student_id : String
  user_id : Option String
  name : String
deriving DecidableEq, Repr

/-- A row of the parents table. -/
structure ParentRec where
  parent_id : String
  user_id : String
  name : String
deriving DecidableEq, Repr

/-- A row of the parent_student link table. -/
structure ParentStudentLink where
  parent_id : String
  student_id : String
deriving DecidableEq, Repr

/-- A row of the fees table.  amount and amount_paid are numeric columns
(Python floats), modelled as rationals; amount_paid has column default 0
(FeeCreate carries no amount_paid and FeeResponse defaults it to 0). -/
structure FeeRec where
  fee_id : String
  student_id : String
  amount : Rat
  amount_paid : Rat
  fee_type : String
  due_date : String
  status : String
  academic_year : String
  payment_date : Option String
  payment_method : Option String
  transaction_id : Option String
deriving DecidableEq, Repr

/-- A row of the exams table (fields the marks handlers touch). -/
structure ExamRec where
  exam_id : String
  max_marks : Int
deriving DecidableEq, Repr

/-- A row of the marks table. -/
structure MarkRec where
  mark_id : String
  exam_id : String
  student_id : String
  marks_scored : Rat
  remarks : Option String
deriving DecidableEq, Repr

/-- A row of the attendance table. -/
structure AttendanceRec where
  attendance_id : String
  student_id : String
  date : String
  status : String
  remarks : Option String
deriving DecidableEq, Repr

/-- A row of the leave_requests table. -/
structure LeaveRec where
  request_id : String
  student_id : String
  start_date : String
  end_date : String
  reason : String
  status : String
  admin_remarks : Option String
  updated_at : Option String
deriving DecidableEq, Repr

/-- The remote store: one list per table, plus a counter standing for the
store's id generator (ids issued for inserted rows). -/
structure DB where
  users : List UserRec
  students : List StudentRec
  parents : List ParentRec
  parent_student : List ParentStudentLink
  fees : List FeeRec
  exams : List ExamRec
  marks : List MarkRec
  attendance : List AttendanceRec
  leave_requests : List LeaveRec
  nextId : Nat
deriving DecidableEq, Repr

/-- The id the store assigns to the next inserted row. -/
def DB.genId (db : DB) : String := toString db.nextId

/-!  Gateway helpers (app/db/supabase.py, SupabaseQueries), specialised
per table.  select_by_id / select_one return the first matching row or
None; select_all returns every matching row (result ordering requested
via order_by is performed by the external store and is abstracted here —
the claims below are about which rows are returned, not their order). -/

/-- select_by_id("fees", "fee_id", v). -/
def selectFeeById (db : DB) (v : String) : Option FeeRec :=
  db.fees.find? (fun f => f.fee_id == v)

/-- select_by_id("students", "student_id", v). -/
def selectStudentById (db : DB) (v : String) : Option StudentRec :=
  db.students.find? (fun s => s.student_id == v)

/-- select_by_id("exams", "exam_id", v). -/
def selectExamById (db : DB) (v : String) : Option ExamRec :=
  db.exams.find? (fun e => e.exam_id == v)

/-- select_by_id("marks", "mark_id", v). -/
def selectMarkById (db : DB) (v : String) : Option MarkRec :=
  db.marks.find? (fun m => m.mark_id == v)

/-- select_by_id("leave_requests", "request_id", v). -/
def selectLeaveById (db : DB) (v : String) : Option LeaveRec :=
  db.leave_requests.find? (fun r => r.request_id == v)

/-- select_one("students", filter user_id = sub). -/
def selectStudentByUser (db : DB) (sub : String) : Option StudentRec :=
  db.students.find? (fun s => s.user_id == some sub)

/-- select_one("parents", filter user_id = sub). -/
def selectParentByUser (db : DB) (sub : String) : Option ParentRec :=
  db.parents.find? (fun p => p.user_id == sub)

/-- select_all("parent_student", filter parent_id = pid). -/
def selectLinksByParent (db : DB) (pid : String) : List ParentStudentLink :=
  db.parent_student.filter (fun l => l.parent_id == pid)

/-- select_one("marks", filter exam_id and student_id). -/
def selectMarkByExamStudent (db : DB) (eid sid : String) : Option MarkRec :=
  db.marks.find? (fun m => m.exam_id == eid && m.student_id == sid)

/-- The raw duplicate query of mark_attendance: select from attendance
where student_id = sid and date = d. -/
def selectAttendanceByStudentDate (db : DB) (sid d : String) : List AttendanceRec :=
  db.attendance.filter (fun a => a.student_id == sid && a.date == d)

/-- update_by_id("fees", "fee_id", v, data): applies the field update to
every row whose fee_id matches (the store updates all matching rows and
echoes them; the handler uses the first). -/
def updateFeesById (fees : List FeeRec) (v : String) (f : FeeRec → FeeRec) : List FeeRec :=
  fees.map (fun r => if r.fee_id == v then f r else r)

/-- update_by_id("leave_requests", "request_id", v, data). -/
def updateLeaveById (reqs : List LeaveRec) (v : String) (f : LeaveRec → LeaveRec) : List LeaveRec :=
  reqs.map (fun r => if r.request_id == v then f r else r)

/-!  ## Fees: record_payment (fees.py lines 575-639)

The FeePayment request schema (schemas.py): fee_id, amount_paid (float,
gt=0), payment_method, optional transaction_id.

The store call that performs the update may itself fail: the gateway's
update_by_id wraps any store exception as
Exception("Failed to update fees: " + text) and the endpoint's blanket
`except Exception` turns that into a 500 whose detail is
"Failed to record payment: " + str(e) (lines 634-639).  Store failure is
injected through the updateFault argument: some text means the store
raised with that message at the update call; none means the update
succeeded. -/

/-- FeePayment request body (schemas.py lines 406-410). -/
structure FeePayment where
  fee_id : String
  amount_paid : Rat
  payment_method : String
  transaction_id : Option String
deriving DecidableEq, Repr

/-- record_payment handler (fees.py lines 575-639).  now is the
datetime.now().isoformat() value. -/
def record_payment (payment_data : FeePayment) (now : String)
    (updateFault : Option String) (db : DB) : Except HttpError FeeRec × DB :=
  match selectFeeById db payment_data.fee_id with
  | none => (.error ⟨404, "Fee record not found"⟩, db)
  | some fee =>
    let current_paid := fee.amount_paid
    let total_amount := fee.amount
    let new_paid_amount := current_paid + payment_data.amount_paid
    if new_paid_amount > total_amount then
      (.error ⟨400, "Payment (" ++ toString payment_data.amount_paid
        ++ ") exceeds balance due (" ++ toString (total_amount - current_paid) ++ ")"⟩, db)
    else
      let new_balance := total_amount - new_paid_amount
      let new_status := if new_balance = 0 then "paid" else "partial"
      match updateFault with
      | some text =>
        -- the gateway raises Exception("Failed to update fees: " + text);
        -- the blanket except branch logs it and raises a 500 whose detail
        -- embeds str(e)
        (.error ⟨500, "Failed to record payment: Failed to update fees: " ++ text⟩, db)
      | none =>
        let updated : FeeRec → FeeRec := fun r =>
          { r with amount_paid := new_paid_amount
                   status := new_status
                   payment_date := some now
                   payment_method := some payment_data.payment_method
                   transaction_id := payment_data.transaction_id }
        let db2 : DB := { db with fees := updateFeesById db.fees payment_data.fee_id updated }
        (.ok (updated fee), db2)

/-!  ## Leave requests (leave_requests.py) -/

/-- LeaveRequestCreate request body (schemas.py lines 496-505).  The
status field defaults to LeaveStatus.PENDING when the client omits it,
but any LeaveStatus value the client sends is accepted by validation. -/
structure LeaveRequestCreate where
  student_id : String
  start_date : String
  end_date : String
  reason : String
  status : LeaveStatus
deriving DecidableEq, Repr

/-- LeaveRequestUpdate request body (schemas.py lines 508-510):
status is required, admin_remarks optional (exclude_unset drops it from
the update when absent). -/
structure LeaveRequestUpdate where
  status : LeaveStatus
  admin_remarks : Option String
deriving DecidableEq, Repr

/-- create_leave_request handler (leave_requests.py lines 29-99),
get_current_user already applied: any authenticated role reaches the
body.  The inserted row's status is request_dict["status"].value, taken
straight from the request body (line 81). -/
def create_leave_request (current_user : TokenPayload)
    (request_data : LeaveRequestCreate) (db : DB) : Except HttpError LeaveRec × DB :=
  let insertIt : String → Except HttpError LeaveRec × DB := fun student_id_to_use =>
    let row : LeaveRec :=
      { request_id := db.genId
        student_id := student_id_to_use
        start_date := request_data.start_date
        end_date := request_data.end_date
        reason := request_data.reason
        status := request_data.status.value
        admin_remarks := none
        updated_at := none }
    (.ok row, { db with leave_requests := db.leave_requests ++ [row], nextId := db.nextId + 1 })
  match current_user.role with
  | .student =>
    match selectStudentByUser db current_user.sub with
    | none => (.error ⟨404, "Student profile not found for this user."⟩, db)
    | some student =>
      if request_data.student_id ≠ student.student_id then
        (.error ⟨403, "Students can only submit leave requests for themselves."⟩, db)
      else insertIt student.student_id
  | .parent =>
    match selectParentByUser db current_user.sub with
    | none => (.error ⟨404, "Parent profile not found for this user."⟩, db)
    | some parent =>
      let child_ids := (selectLinksByParent db parent.parent_id).map (·.student_id)
      if request_data.student_id ∉ child_ids then
        (.error ⟨403, "Parents can only submit requests for their own children."⟩, db)
      else insertIt request_data.student_id
  | .admin =>
    match selectStudentById db request_data.student_id with
    | none => (.error ⟨404, "Student not found."⟩, db)
    | some _ => insertIt request_data.student_id
  | _ =>
    (.error ⟨403, "Only Students, Parents, or Admins can create leave requests."⟩, db)

/-- update_leave_request_status handler (leave_requests.py lines
211-248).  The route dependency require_teacher (security.py lines
175-183, the module's final binding of that name) admits teacher, admin
and master and raises 403 for every other role.  The handler itself only
checks that the request exists: it applies the supplied status to the
stored row unconditionally, whatever the row's current status. -/
def update_leave_request_status (request_id : String)
    (update_data : LeaveRequestUpdate) (current_user : TokenPayload)
    (now : String) (db : DB) : Except HttpError LeaveRec × DB :=
  if current_user.role ∉ [UserRole.teacher, UserRole.admin, UserRole.master] then
    (.error ⟨403, "Teacher access required"⟩, db)
  else
    match selectLeaveById db request_id with
    | none => (.error ⟨404, "Leave request not found"⟩, db)
    | some existing =>
      let apply : LeaveRec → LeaveRec := fun r =>
        { r with status := update_data.status.value
                 admin_remarks := match update_data.admin_remarks with
                   | some s => some s
                   | none => r.admin_remarks
                 updated_at := some now }
      let db2 : DB :=
        { db with leave_requests := updateLeaveById db.leave_requests request_id apply }
      (.ok (apply existing), db2)

/-!  ## Registration (auth.py)

auth.py defines the /register handler twice; the second definition
(lines 302-358) is the module's final binding of register_user and is
the one the claims cite.  It forces the stored role to student.  The
password-hashing primitive (passlib) is an external collaborator and is
passed in as a function. -/

/-- UserCreate request body (schemas.py lines 51-58): email, role,
is_active (default true), password (min length 8). -/
structure UserCreate where
  email : String
  role : UserRole
  is_active : Bool
  password : String
deriving DecidableEq, Repr

/-- UserResponse (schemas.py lines 66-73). -/
structure UserResponse where
  user_id : String
  email : String
  role : UserRole
  is_active : Bool
  created_at : String
deriving DecidableEq, Repr

/-- register_user handler (auth.py lines 302-358).  hashFn is the
external hash_password primitive; now is the created_at value the store
fills in for the inserted row. -/
def register_user (hashFn : String → String) (now : String)
    (user_data : UserCreate) (db : DB) : Except HttpError UserResponse × DB :=
  let existing := db.users.filter (fun u => u.email == user_data.email)
  if existing ≠ [] then
    (.error ⟨400, "User with this email already exists"⟩, db)
  else
    let hashed_password := hashFn user_data.password
    -- Force role to STUDENT for public registrations (line 335)
    let new_user : UserRec :=
      { user_id := db.genId
        email := user_data.email
        password_hash := hashed_password
        role := UserRole.student.value
        is_active := user_data.is_active
        created_at := now }
    let db2 : DB := { db with users := db.users ++ [new_user], nextId := db.nextId + 1 }
    match UserRole.ofString new_user.role with
    | some r =>
      (.ok { user_id := new_user.user_id
             email := new_user.email
             role := r
             is_active := new_user.is_active
             created_at := new_user.created_at }, db2)
    | none =>
      -- UserRole(new_user["role"]) would raise ValueError; unreachable,
      -- the stored role is the literal "student"
      (.error ⟨500, "Registration failed"⟩, db2)

/-!  ## Marks (marks.py) -/

/-- MarksCreate request body (schemas.py lines 297-305): exam_id,
student_id, marks_scored (float, ge 0), optional remarks. -/
structure MarksCreate where
  exam_id : String
  student_id : String
  marks_scored : Rat
  remarks : Option String
deriving DecidableEq, Repr

/-- create_mark handler (marks.py lines 48-106), require_teacher already
satisfied.  Checks in source order: exam exists, student exists,
duplicate (exam_id, student_id), marks_scored against max_marks; only
then inserts. -/
def create_mark (mark_data : MarksCreate) (db : DB) : Except HttpError MarkRec × DB :=
  match selectExamById db mark_data.exam_id with
  | none => (.error ⟨404, "Exam not found"⟩, db)
  | some exam =>
    match selectStudentById db mark_data.student_id with
    | none => (.error ⟨404, "Student not found"⟩, db)
    | some _ =>
      match selectMarkByExamStudent db mark_data.exam_id mark_data.student_id with
      | some _ => (.error ⟨400, "Marks for this student and exam already exist."⟩, db)
      | none =>
        if mark_data.marks_scored > (exam.max_marks : Rat) then
          (.error ⟨400, "Marks scored (" ++ toString mark_data.marks_scored
            ++ ") cannot be greater than max marks (" ++ toString exam.max_marks ++ ")"⟩, db)
        else
          let new_mark : MarkRec :=
            { mark_id := db.genId
              exam_id := mark_data.exam_id
              student_id := mark_data.student_id
              marks_scored := mark_data.marks_scored
              remarks := mark_data.remarks }
          (.ok new_mark, { db with marks := db.marks ++ [new_mark], nextId := db.nextId + 1 })

/-- Result shape of the bulk marks endpoint: created_count plus the
per-index error list (index, error text). -/
structure BulkMarksResult where
  created_count : Nat
  errors : List (Nat × String)
deriving DecidableEq, Repr

/-- The per-entry validation loop of create_bulk_marks (marks.py lines
133-148): walks the enumerated list, collecting error entries for
entries whose exam differs from the first or whose score exceeds
max_marks, and the records to insert for the rest.  No duplicate check
against existing rows is performed. -/
def bulkValidate (first_exam_id : String) (max_marks : Int) :
    List (Nat × MarksCreate) → List (Nat × String) × List MarksCreate
  | [] => ([], [])
  | (i, mark_data) :: rest =>
    let (errs, recs) := bulkValidate first_exam_id max_marks rest
    if mark_data.exam_id ≠ first_exam_id then
      ((i, "All marks in a bulk upload must be for the same exam.") :: errs, recs)
    else if mark_data.marks_scored > (max_marks : Rat) then
      ((i, "Marks exceed max marks.") :: errs, recs)
    else
      (errs, mark_data :: recs)

/-- insert_many("marks", records): the store appends every record,
assigning consecutive ids. -/
def insertManyMarks (db : DB) (records : List MarksCreate) : List MarkRec × DB :=
  match records with
  | [] => ([], db)
  | r :: rest =>
    let new_mark : MarkRec :=
      { mark_id := db.genId
        exam_id := r.exam_id
        student_id := r.student_id
        marks_scored := r.marks_scored
        remarks := r.remarks }
    let (more, db2) :=
      insertManyMarks { db with marks := db.marks ++ [new_mark], nextId := db.nextId + 1 } rest
    (new_mark :: more, db2)

/-- create_bulk_marks handler (marks.py lines 108-166), require_teacher
already satisfied.  Fetches the first entry's exam once, validates each
entry against it, then bulk-inserts the surviving records. -/
def create_bulk_marks (marks_list : List MarksCreate) (db : DB) :
    Except HttpError BulkMarksResult × DB :=
  match marks_list with
  | [] => (.error ⟨400, "No marks data provided."⟩, db)
  | first :: _ =>
    let first_exam_id := first.exam_id
    match selectExamById db first_exam_id with
    | none => (.error ⟨404, "Exam with ID " ++ first_exam_id ++ " not found."⟩, db)
    | some exam =>
      let max_marks := exam.max_marks
      let enumerated := (List.range marks_list.length).zip marks_list
      let validated := bulkValidate first_exam_id max_marks enumerated
      let inserted := insertManyMarks db validated.2
      (.ok { created_count := inserted.1.length, errors := validated.1 }, inserted.2)

/-!  ## Fees listing (fees.py lines 641-703) -/

/-- The equality filter dict the get_fees handler builds before calling
select_all("fees", filters, "due_date", ascending=False). -/
structure FeeFilters where
  student_id : Option String
  status : Option String
  academic_year : Option String
deriving DecidableEq, Repr

/-- A fee row matches the filter dict when it equals every present key. -/
def feeMatches (flt : FeeFilters) (f : FeeRec) : Bool :=
  (match flt.student_id with | some v => f.student_id == v | none => true)
    && (match flt.status with | some v => f.status == v | none => true)
    && (match flt.academic_year with | some v => f.academic_year == v | none => true)

/-- get_fees handler (fees.py lines 641-703).  Students and parents are
scoped to their own records; for a parent without a student_id query the
handler fetches with the remaining filters and post-filters rows whose
student_id is not among the parent's linked children. -/
def get_fees (student_id : Option String) (statusQ : Option String)
    (academic_year : Option String) (current_user : TokenPayload) (db : DB) :
    Except HttpError (List FeeRec) :=
  let flt0 : FeeFilters := { student_id := none, status := none, academic_year := none }
  let scopedR : Except HttpError (FeeFilters × Option (List FeeRec)) :=
    match current_user.role with
    | .student =>
      match selectStudentByUser db current_user.sub with
      | none => .ok (flt0, some [])   -- handler returns [] immediately
      | some student =>
        .ok ({ flt0 with student_id := some student.student_id }, none)
    | .parent =>
      match selectParentByUser db current_user.sub with
      | none => .ok (flt0, some [])   -- handler returns [] immediately
      | some parent =>
        let student_ids_allowed :=
          (selectLinksByParent db parent.parent_id).map (·.student_id)
        if student_ids_allowed = [] then .ok (flt0, some [])
        else
          match student_id with
          | some sid =>
            if sid ∈ student_ids_allowed then
              .ok ({ flt0 with student_id := some sid }, none)
            else .error ⟨403, "Access denied to this student's records"⟩
          | none => .ok (flt0, none)
    | _ =>
      .ok ({ flt0 with student_id := student_id }, none)
  match scopedR with
  | .error e => .error e
  | .ok (_, some shortcut) => .ok shortcut
  | .ok (flt1, none) =>
    let flt : FeeFilters := { flt1 with status := statusQ, academic_year := academic_year }
    let fees_list := db.fees.filter (feeMatches flt)
    -- post-fetch filter for the parent role (fees.py lines 695-698):
    -- skipped when role is not parent or student_ids_allowed is falsy
    match current_user.role with
    | .parent =>
      match selectParentByUser db current_user.sub with
      | some parent =>
        let student_ids_allowed :=
          (selectLinksByParent db parent.parent_id).map (·.student_id)
        if student_ids_allowed = [] then .ok fees_list
        else .ok (fees_list.filter (fun fee => fee.student_id ∈ student_ids_allowed))
      | none => .ok fees_list
    | _ => .ok fees_list

/-!  ## Attendance (attendance.py lines 19-66) -/

/-- AttendanceCreate request body (schemas.py lines 235-243). -/
structure AttendanceCreate where
  student_id : String
  date : String
  status : AttendanceStatus
  remarks : Option String
deriving DecidableEq, Repr

/-- mark_attendance handler (attendance.py lines 19-66) with its
require_teacher route dependency (teacher, admin or master; 403
otherwise).  Rejects with 400 when a record for the same
(student_id, date) already exists; otherwise inserts one record. -/
def mark_attendance (attendance_data : AttendanceCreate)
    (current_user : TokenPayload) (db : DB) : Except HttpError AttendanceRec × DB :=
  if current_user.role ∉ [UserRole.teacher, UserRole.admin, UserRole.master] then
    (.error ⟨403, "Teacher access required"⟩, db)
  else
    let existing :=
      selectAttendanceByStudentDate db attendance_data.student_id attendance_data.date
    if existing ≠ [] then
      (.error ⟨400, "Attendance already marked for this date"⟩, db)
    else
      let new_attendance : AttendanceRec :=
        { attendance_id := db.genId
          student_id := attendance_data.student_id
          date := attendance_data.date
          status := attendance_data.status.value
          remarks := attendance_data.remarks }
      (.ok new_attendance,
        { db with attendance := db.attendance ++ [new_attendance], nextId := db.nextId + 1 })

/-- Number of stored attendance rows for a (student_id, date) pair. -/
def attendanceCount (db : DB) (sid d : String) : Nat :=
  (selectAttendanceByStudentDate db sid d).length

/-!  ## Tokens (security.py, auth.py)

A JWT is modelled by the key it was signed with plus its claim set; the
signing primitive is external.  Signature verification succeeds exactly
when the verifier's key matches, and jose's decode rejects expired
tokens (exp at or before the current time) with a JWTError. -/

/-- Claim set of an issued token: sub and role as optional claims, the
type discriminator, and the expiry timestamp. -/
structure JwtClaims where
  sub : Option String
  role : Option String
  typ : String
  exp : Nat
deriving DecidableEq, Repr

/-- A signed compact token: signing key plus claims. -/
structure Jwt where
  key : String
  claims : JwtClaims
deriving DecidableEq, Repr

/-- settings.ACCESS_TOKEN_EXPIRE_MINUTES default (config.py line 21). -/
def ACCESS_TOKEN_EXPIRE_MINUTES : Nat := 60

/-- settings.REFRESH_TOKEN_EXPIRE_DAYS default (config.py line 22). -/
def REFRESH_TOKEN_EXPIRE_DAYS : Nat := 7

/-- create_access_token (security.py lines 29-40) with the default
expiry window, called as in login/refresh with data = sub and role. -/
def create_access_token (sub roleStr : String) (key : String) (now : Nat) : Jwt :=
  { key := key
    claims := { sub := some sub, role := some roleStr, typ := "access",
                exp := now + ACCESS_TOKEN_EXPIRE_MINUTES * 60 } }

/-- create_refresh_token (security.py lines 42-48). -/
def create_refresh_token (sub roleStr : String) (key : String) (now : Nat) : Jwt :=
  { key := key
    claims := { sub := some sub, role := some roleStr, typ := "refresh",
                exp := now + REFRESH_TOKEN_EXPIRE_DAYS * 24 * 60 * 60 } }

/-- verify_token (security.py lines 50-73).  jwt.decode checks the
signature and expiry and raises JWTError on either (caught: 401 "Could
not validate credentials"); a missing sub or role claim raises 401
"Invalid token payload".  The type claim is never read.  A role string
outside the enum would make UserRole(role) raise an uncaught ValueError
(surfacing as a 500); that path is modelled with status 500. -/
def verify_token (token : Jwt) (key : String) (now : Nat) : Except HttpError TokenPayload :=
  if token.key ≠ key ∨ token.claims.exp ≤ now then
    .error ⟨401, "Could not validate credentials"⟩
  else
    match token.claims.sub, token.claims.role with
    | some user_id, some roleStr =>
      match UserRole.ofString roleStr with
      | some role => .ok { sub := user_id, role := role, exp := token.claims.exp }
      | none => .error ⟨500, "ValueError: not a valid UserRole"⟩
    | _, _ => .error ⟨401, "Invalid token payload"⟩

/-- Token response body (schemas.py lines 82-86). -/
structure TokenOut where
  access_token : Jwt
  refresh_token : Jwt
  token_type : String
  expires_in : Nat
deriving DecidableEq, Repr

/-- The /refresh endpoint (auth.py lines 179-209): verifies the supplied
token (any failure is caught and mapped to 401 "Invalid refresh token")
and issues a fresh access token and a fresh refresh token from the
verified sub and role. -/
def refresh_token (tok : Jwt) (key : String) (now : Nat) : Except HttpError TokenOut :=
  match verify_token tok key now with
  | .error _ => .error ⟨401, "Invalid refresh token"⟩
  | .ok payload =>
    .ok { access_token := create_access_token payload.sub payload.role.value key now
          refresh_token := create_refresh_token payload.sub payload.role.value key now
          token_type := "bearer"
          expires_in := ACCESS_TOKEN_EXPIRE_MINUTES * 60 }

/-!  ## Single mark retrieval (marks.py lines 241-282) -/

/-- get_mark handler (marks.py lines 241-282).  For a parent caller the
code reads parent_profile["parent_id"] without a None check: when the
caller has no parents row, select_one returns None and the subscript
raises TypeError, which the blanket except branch converts to a 500
whose detail embeds str(e) — the 403 branch is never reached. -/
def get_mark (mark_id : String) (current_user : TokenPayload) (db : DB) :
    Except HttpError MarkRec :=
  match selectMarkById db mark_id with
  | none => .error ⟨404, "Mark not found"⟩
  | some mark =>
    match current_user.role with
    | .student =>
      match selectStudentByUser db current_user.sub with
      | none => .error ⟨403, "Access denied"⟩
      | some student_profile =>
        if mark.student_id ≠ student_profile.student_id then
          .error ⟨403, "Access denied"⟩
        else .ok mark
    | .parent =>
      match selectParentByUser db current_user.sub with
      | none =>
        -- parent_profile is None: parent_profile["parent_id"] raises
        -- TypeError, caught by the blanket except → 500 (lines 277-282)
        .error ⟨500, "Failed to retrieve mark: 'NoneType' object is not subscriptable"⟩
      | some parent_profile =>
        let child_ids :=
          (selectLinksByParent db parent_profile.parent_id).map (·.student_id)
        if mark.student_id ∉ child_ids then
          .error ⟨403, "Access denied"⟩
        else .ok mark
    | _ => .ok mark

/-!  ## Concrete fixtures used by witnesses and counterexamples -/

/-- The empty store. -/
def dbEmpty : DB :=
  { users := [], students := [], parents := [], parent_student := [], fees := [],
    exams := [], marks := [], attendance := [], leave_requests := [], nextId := 0 }

/-- A fee row: total 100, 60 already paid. -/
def fee1 : FeeRec :=
  { fee_id := "f1", student_id := "s1", amount := 100, amount_paid := 60,
    fee_type := "tuition", due_date := "2026-03-01", status := "partial",
    academic_year := "2025-26", payment_date := none, payment_method := none,
    transaction_id := none }

/-- Store holding just fee1. -/
def dbFees : DB := { dbEmpty with fees := [fee1] }

/-- A payment of 50 against fee1 (only 40 is still due). -/
def pay50 : FeePayment :=
  { fee_id := "f1", amount_paid := 50, payment_method := "cash", transaction_id := none }

/-- A payment of 30 against fee1 (within the 40 still due). -/
def pay30 : FeePayment :=
  { fee_id := "f1", amount_paid := 30, payment_method := "cash", transaction_id := none }

/-- A student row linked to user u-s1. -/
def stu1 : StudentRec := { student_id := "s1", user_id := some "u-s1", name := "Alice" }

/-- Store holding just stu1. -/
def dbStudents : DB := { dbEmpty with students := [stu1] }

/-- An admin caller. -/
def userAdmin : TokenPayload := { sub := "u-a", role := .admin, exp := 9999 }

/-- A parent caller. -/
def userParent : TokenPayload := { sub := "u-p", role := .parent, exp := 9999 }

/-- A teacher caller. -/
def userTeacher : TokenPayload := { sub := "u-t", role := .teacher, exp := 9999 }

/-- A leave request body whose client-chosen status is approved. -/
def reqApproved : LeaveRequestCreate :=
  { student_id := "s1", start_date := "2026-01-10", end_date := "2026-01-12",
    reason := "family event", status := .approved }

/-- The row the C2 witness creation stores. -/
def rowC2 : LeaveRec :=
  { request_id := "0", student_id := "s1", start_date := "2026-01-10",
    end_date := "2026-01-12", reason := "family event", status := "approved",
    admin_remarks := none, updated_at := none }

/-- The store after the C2 witness creation. -/
def dbAfterC2 : DB := { dbStudents with leave_requests := [rowC2], nextId := 1 }

/-- A leave request already approved. -/
def lrApproved : LeaveRec :=
  { request_id := "r1", student_id := "s1", start_date := "2026-01-10",
    end_date := "2026-01-12", reason := "family event", status := "approved",
    admin_remarks := none, updated_at := none }

/-- Store holding just lrApproved. -/
def dbLeaveApproved : DB := { dbEmpty with leave_requests := [lrApproved] }

/-- A registration request that asks for the admin role. -/
def regAdminAttempt : UserCreate :=
  { email := "eve@example.com", role := .admin, is_active := true,
    password := "hunter2pass" }

/-- An exam worth 100 marks. -/
def exam1 : ExamRec := { exam_id := "e1", max_marks := 100 }

/-- An existing mark of student s1 in exam e1. -/
def mark0 : MarkRec :=
  { mark_id := "m0", exam_id := "e1", student_id := "s1", marks_scored := 50,
    remarks := none }

/-- Store with exam1, stu1 and the existing mark0. -/
def dbMarks : DB := { dbEmpty with exams := [exam1], students := [stu1], marks := [mark0] }

/-- A marks entry for the (e1, s1) pair that mark0 already occupies. -/
def dupMark : MarksCreate :=
  { exam_id := "e1", student_id := "s1", marks_scored := 60, remarks := none }

/-- A marks entry for a pair not yet present. -/
def freshMark : MarksCreate :=
  { exam_id := "e1", student_id := "s2", marks_scored := 60, remarks := none }

/-- The row the bulk witness inserts for freshMark. -/
def markNewBulk : MarkRec :=
  { mark_id := "0", exam_id := "e1", student_id := "s2", marks_scored := 60,
    remarks := none }

/-- Result of the bulk witness call. -/
def bulkResOk : BulkMarksResult := { created_count := 1, errors := [] }

/-- Store after the bulk witness call. -/
def dbMarksAfterBulk : DB := { dbMarks with marks := [mark0, markNewBulk], nextId := 1 }

/-- A parent row linked to user u-p. -/
def par1 : ParentRec := { parent_id := "p1", user_id := "u-p", name := "Pat" }

/-- Fee rows of the parent's two children (s1, s2) and of a stranger (s3). -/
def feeA : FeeRec :=
  { fee_id := "fa", student_id := "s1", amount := 100, amount_paid := 0,
    fee_type := "tuition", due_date := "2026-03-01", status := "pending",
    academic_year := "2025-26", payment_date := none, payment_method := none,
    transaction_id := none }

/-- Second child's fee row. -/
def feeB : FeeRec :=
  { fee_id := "fb", student_id := "s2", amount := 80, amount_paid := 0,
    fee_type := "transport", due_date := "2026-04-01", status := "pending",
    academic_year := "2025-26", payment_date := none, payment_method := none,
    transaction_id := none }

/-- A stranger's fee row. -/
def feeC : FeeRec :=
  { fee_id := "fc", student_id := "s3", amount := 90, amount_paid := 0,
    fee_type := "tuition", due_date := "2026-05-01", status := "pending",
    academic_year := "2025-26", payment_date := none, payment_method := none,
    transaction_id := none }

/-- Store for the C6 scenario: parent p1 with children s1 and s2, fees of
s1, s2 and s3. -/
def dbParentFees : DB :=
  { dbEmpty with
    parents := [par1]
    parent_student := [{ parent_id := "p1", student_id := "s1" },
                       { parent_id := "p1", student_id := "s2" }]
    fees := [feeA, feeB, feeC] }

/-- An attendance row for (s1, 2026-01-05). -/
def att1 : AttendanceRec :=
  { attendance_id := "a1", student_id := "s1", date := "2026-01-05",
    status := "present", remarks := none }

/-- Store holding just att1. -/
def dbAtt : DB := { dbEmpty with attendance := [att1], students := [stu1] }

/-- A second create for the (s1, 2026-01-05) pair already present. -/
def attDup : AttendanceCreate :=
  { student_id := "s1", date := "2026-01-05", status := .absent, remarks := none }

/-- A create for a pair not yet present. -/
def attNew : AttendanceCreate :=
  { student_id := "s1", date := "2026-01-06", status := .present, remarks := none }

/-- Store with a mark but no parents rows, for the C10 scenario. -/
def dbMarksNoParent : DB := { dbEmpty with marks := [mark0] }

/-!  ## Helper lemmas -/

/-- Every record surviving the bulk validation loop is for the first
exam and within max_marks. -/
theorem bulkValidate_sound (fid : String) (mx : Int)
    (l : List (Nat × MarksCreate)) :
    ∀ r ∈ (bulkValidate fid mx l).2, r.exam_id = fid ∧ r.marks_scored ≤ (mx : Rat) := by
  induction l with
  | nil => intro r hr; simp [bulkValidate] at hr
  | cons hd tl ih =>
    intro r hr
    obtain ⟨i, md⟩ := hd
    simp only [bulkValidate] at hr
    split at hr
    · exact ih r hr
    · split at hr
      · exact ih r hr
      · rcases List.mem_cons.mp hr with h | h
        · subst h
          constructor
          · by_contra hne
            simp_all
          · by_contra hgt
            simp_all [not_le]
        · exact ih r h

/-- insert_many appends exactly the validated records, preserving their
exam ids and scores. -/
theorem insertManyMarks_spec (records : List MarksCreate) (db : DB) :
    (insertManyMarks db records).2.marks = db.marks ++ (insertManyMarks db records).1 ∧
    ((insertManyMarks db records).1.map (fun m => (m.exam_id, m.marks_scored))) =
      records.map (fun r => (r.exam_id, r.marks_scored)) := by
  induction records generalizing db with
  | nil => simp [insertManyMarks]
  | cons r rest ih =>
    simp only [insertManyMarks]
    obtain ⟨ih1, ih2⟩ := ih { db with marks := db.marks ++ [_], nextId := db.nextId + 1 }
    constructor
    · simpa [List.append_assoc] using ih1
    · simpa using ih2

/-- A fee row matches the empty filter dict. -/
theorem feeMatches_none (f : FeeRec) :
    feeMatches { student_id := none, status := none, academic_year := none } f = true := rfl

/-!  ## C1 -/

/-- C1: a payment whose amount, added to the fee's stored amount_paid,
exceeds the fee's amount is rejected with a 400 and the store is left
untouched (no update call is issued, so amount_paid and status are
unchanged and the payment is never clamped to the remaining balance).
Quantified over the store-fault injection too: the rejection happens
before the update call, so no store behaviour can alter it. -/
theorem record_payment_rejects_overpayment
    (payment_data : FeePayment) (now : String) (fault : Option String) (db : DB)
    (fee : FeeRec) (hfee : selectFeeById db payment_data.fee_id = some fee)
    (hover : fee.amount_paid + payment_data.amount_paid > fee.amount) :
    ∃ e : HttpError,
      record_payment payment_data now fault db = (.error e, db) ∧ e.statusCode = 400 := by
  simp only [record_payment, hfee]
  rw [if_pos hover]
  exact ⟨_, rfl, rfl⟩

/-- C1 witness: fee1 has 100 total with 60 paid; a payment of 50
overshoots by 10 and is rejected with a 400, leaving the store as it
was. -/
theorem record_payment_rejects_overpayment_witness :
    ∃ e : HttpError,
      record_payment pay50 "2026-02-01" none dbFees = (.error e, dbFees) ∧
        e.statusCode = 400 :=
  record_payment_rejects_overpayment pay50 "2026-02-01" none dbFees fee1
    (by decide) (by norm_num [fee1, pay50])

/-!  ## C2 -/

/-- C2 counterexample: an admin creating a leave request with
status approved in the body succeeds, and the stored row's status is
"approved", not "pending" — creation does not force pending. -/
theorem create_leave_request_stores_client_status_cex :
    (∃ row : LeaveRec, (create_leave_request userAdmin reqApproved dbStudents).1 = .ok row) ∧
    ((create_leave_request userAdmin reqApproved dbStudents).2.leave_requests.map
        (·.status)) = ["approved"] := by
  exact ⟨⟨_, rfl⟩, rfl⟩

/-- C2 amended: every successful create_leave_request stores the status
value supplied in the request body (which only defaults to pending when
the client omits the field), appending exactly that one row. -/
theorem create_leave_request_status_from_request
    (u : TokenPayload) (r : LeaveRequestCreate) (db : DB) (row : LeaveRec) (db2 : DB)
    (h : create_leave_request u r db = (.ok row, db2)) :
    row.status = r.status.value ∧
    db2.leave_requests = db.leave_requests ++ [row] := by
  simp only [create_leave_request] at h
  repeat' split at h
  all_goals
    simp only [Prod.mk.injEq, Except.ok.injEq] at h
  all_goals
    try exact absurd h.1 (by simp)
  all_goals
    obtain ⟨h1, h2⟩ := h
    subst h1
    subst h2
    exact ⟨rfl, rfl⟩

/-- C2 witness: the concrete admin creation stores status "approved",
i.e. exactly the value carried by the request body. -/
theorem create_leave_request_status_from_request_witness :
    rowC2.status = reqApproved.status.value ∧
    dbAfterC2.leave_requests = dbStudents.leave_requests ++ [rowC2] :=
  create_leave_request_status_from_request userAdmin reqApproved dbStudents rowC2 dbAfterC2 rfl

/-!  ## C3 -/

/-- C3 counterexample: the update endpoint moves an approved request
back to pending — approved is not terminal, so the reachable transitions
are not limited to pending to approved and pending to rejected. -/
theorem update_leave_request_not_terminal_cex :
    dbLeaveApproved.leave_requests.map (·.status) = ["approved"] ∧
    (∃ row, (update_leave_request_status "r1" ⟨.pending, none⟩ userAdmin "t1"
        dbLeaveApproved).1 = .ok row) ∧
    ((update_leave_request_status "r1" ⟨.pending, none⟩ userAdmin "t1"
        dbLeaveApproved).2.leave_requests.map (·.status)) = ["pending"] := by
  exact ⟨rfl, ⟨_, rfl⟩, rfl⟩

/-- C3 amended: only teacher, admin or master callers may transition
(any other role gets a 403 and the store is untouched), but for those
callers the endpoint sets an existing request's status to whatever value
the body supplies, regardless of the current status — no transition is
terminal. -/
theorem update_leave_request_status_roles_and_transitions :
    (∀ (rid : String) (upd : LeaveRequestUpdate) (u : TokenPayload) (now : String) (db : DB),
        u.role ∉ [UserRole.teacher, UserRole.admin, UserRole.master] →
        update_leave_request_status rid upd u now db =
          (.error ⟨403, "Teacher access required"⟩, db)) ∧
    (∀ (rid : String) (upd : LeaveRequestUpdate) (u : TokenPayload) (now : String)
        (db : DB) (ex : LeaveRec),
        u.role ∈ [UserRole.teacher, UserRole.admin, UserRole.master] →
        selectLeaveById db rid = some ex →
        ∃ row db2, update_leave_request_status rid upd u now db = (.ok row, db2) ∧
          row.status = upd.status.value) := by
  constructor
  · intro rid upd u now db hrole
    simp only [update_leave_request_status]
    rw [if_pos hrole]
  · intro rid upd u now db ex hrole hfind
    simp only [update_leave_request_status]
    rw [if_neg (not_not_intro hrole), hfind]
    exact ⟨_, _, rfl, rfl⟩

/-- C3 witness: a parent caller is refused with a 403 while an admin
caller moves the approved request r1 to rejected. -/
theorem update_leave_request_status_roles_and_transitions_witness :
    update_leave_request_status "r1" ⟨.approved, none⟩ userParent "t1" dbLeaveApproved =
      (.error ⟨403, "Teacher access required"⟩, dbLeaveApproved) ∧
    (∃ row db2, update_leave_request_status "r1" ⟨.rejected, none⟩ userAdmin "t1"
        dbLeaveApproved = (.ok row, db2) ∧ row.status = LeaveStatus.rejected.value) :=
  ⟨update_leave_request_status_roles_and_transitions.1 "r1" ⟨.approved, none⟩ userParent
      "t1" dbLeaveApproved (by decide),
   update_leave_request_status_roles_and_transitions.2 "r1" ⟨.rejected, none⟩ userAdmin
      "t1" dbLeaveApproved lrApproved (by decide) rfl⟩

/-!  ## C4 -/

/-- C4: when no user with the given email exists, register_user succeeds,
appends exactly one row to the users table, and both the stored role and
the role in the response are student — whatever role the client supplied
(the handler writes the literal student role). -/
theorem register_user_forces_student_role
    (hashFn : String → String) (now : String) (user_data : UserCreate) (db : DB)
    (hnew : db.users.filter (fun u => u.email == user_data.email) = []) :
    ∃ (resp : UserResponse) (newRec : UserRec) (db2 : DB),
      register_user hashFn now user_data db = (.ok resp, db2) ∧
      db2.users = db.users ++ [newRec] ∧
      newRec.role = "student" ∧
      resp.role = UserRole.student := by
  simp only [register_user, hnew, ne_eq, not_true_eq_false, reduceIte]
  exact ⟨_, _, _, rfl, rfl, rfl, rfl⟩

/-- C4 witness: a registration that asks for the admin role on an empty
store succeeds and both the stored row and the response carry role
student. -/
theorem register_user_forces_student_role_witness :
    ∃ (resp : UserResponse) (newRec : UserRec) (db2 : DB),
      register_user (fun p => "h:" ++ p) "2026-02-01" regAdminAttempt dbEmpty =
        (.ok resp, db2) ∧
      db2.users = dbEmpty.users ++ [newRec] ∧
      newRec.role = "student" ∧
      resp.role = UserRole.student :=
  register_user_forces_student_role (fun p => "h:" ++ p) "2026-02-01" regAdminAttempt
    dbEmpty rfl

/-!  ## C5 -/

/-- C5 counterexample: with a mark for (e1, s1) already stored, a bulk
create containing another entry for (e1, s1) succeeds and leaves two
rows for that pair — the bulk path never checks the at-most-one
per (exam, student) invariant. -/
theorem create_bulk_marks_inserts_duplicate_cex :
    (∃ res, (create_bulk_marks [dupMark] dbMarks).1 = .ok res) ∧
    ((create_bulk_marks [dupMark] dbMarks).2.marks.filter
        (fun m => m.exam_id == "e1" && m.student_id == "s1")).length = 2 := by
  exact ⟨⟨_, rfl⟩, rfl⟩

/-- C5 amended: the single create rejects, with no write, any request
that duplicates an existing (exam, student) pair or exceeds the exam's
max_marks; the bulk create only enforces the score bound (every inserted
row is for the first entry's exam with score at most its max_marks) and
performs no duplicate check, so it can insert a second row for a pair. -/
theorem marks_invariants_single_and_bulk :
    (∀ (m : MarksCreate) (db : DB),
        ((∃ ex, selectMarkByExamStudent db m.exam_id m.student_id = some ex) ∨
         (∃ exam, selectExamById db m.exam_id = some exam ∧
            m.marks_scored > (exam.max_marks : Rat))) →
        ∃ e, create_mark m db = (.error e, db)) ∧
    (∀ (first : MarksCreate) (rest : List MarksCreate) (db : DB)
        (res : BulkMarksResult) (db2 : DB),
        create_bulk_marks (first :: rest) db = (.ok res, db2) →
        ∃ exam newRows, selectExamById db first.exam_id = some exam ∧
          db2.marks = db.marks ++ newRows ∧
          ∀ r ∈ newRows, r.exam_id = first.exam_id ∧
            r.marks_scored ≤ (exam.max_marks : Rat)) := by
  constructor
  · intro m db hviol
    rcases hexam : selectExamById db m.exam_id with _ | exam
    · exact ⟨⟨404, "Exam not found"⟩, by simp [create_mark, hexam]⟩
    · rcases hstu : selectStudentById db m.student_id with _ | stu
      · exact ⟨⟨404, "Student not found"⟩, by simp [create_mark, hexam, hstu]⟩
      · rcases hdup : selectMarkByExamStudent db m.exam_id m.student_id with _ | ex
        · rcases hviol with ⟨ex, hex⟩ | ⟨exam2, hexam2, hgt⟩
          · rw [hdup] at hex
            exact absurd hex (by simp)
          · rw [hexam] at hexam2
            injection hexam2 with he
            subst he
            refine ⟨⟨400, "Marks scored (" ++ toString m.marks_scored
              ++ ") cannot be greater than max marks (" ++ toString exam.max_marks ++ ")"⟩, ?_⟩
            simp only [create_mark, hexam, hstu, hdup]
            rw [if_pos hgt]
        · exact ⟨⟨400, "Marks for this student and exam already exist."⟩,
            by simp [create_mark, hexam, hstu, hdup]⟩
  · intro first rest db res db2 h
    rcases hexam : selectExamById db first.exam_id with _ | exam
    · simp [create_bulk_marks, hexam] at h
    · simp only [create_bulk_marks, hexam, Prod.mk.injEq, Except.ok.injEq] at h
      obtain ⟨-, hdb2⟩ := h
      subst hdb2
      set enumerated := (List.range (first :: rest).length).zip (first :: rest) with henum
      set records := (bulkValidate first.exam_id exam.max_marks enumerated).2 with hrecords
      obtain ⟨hmarks, hmap⟩ := insertManyMarks_spec records db
      refine ⟨exam, (insertManyMarks db records).1, rfl, hmarks, ?_⟩
      intro r hr
      have hfr : (r.exam_id, r.marks_scored) ∈
          records.map (fun s => (s.exam_id, s.marks_scored)) := by
        rw [← hmap]
        exact List.mem_map_of_mem _ hr
      obtain ⟨src, hsrc, heq⟩ := List.mem_map.mp hfr
      obtain ⟨h1, h2⟩ := Prod.mk.injEq .. ▸ heq
      obtain ⟨hs1, hs2⟩ := bulkValidate_sound first.exam_id exam.max_marks enumerated src hsrc
      exact ⟨h1 ▸ hs1, h2 ▸ hs2⟩

/-- C5 witness: the duplicate single create against (e1, s1) is rejected
with the store untouched, and the concrete bulk insert for (e1, s2)
yields rows that are all within exam e1's max_marks. -/
theorem marks_invariants_single_and_bulk_witness :
    (∃ e, create_mark dupMark dbMarks = (.error e, dbMarks)) ∧
    (∃ exam newRows, selectExamById dbMarks freshMark.exam_id = some exam ∧
       dbMarksAfterBulk.marks = dbMarks.marks ++ newRows ∧
       ∀ r ∈ newRows, r.exam_id = freshMark.exam_id ∧
         r.marks_scored ≤ (exam.max_marks : Rat)) :=
  ⟨marks_invariants_single_and_bulk.1 dupMark dbMarks (Or.inl ⟨mark0, rfl⟩),
   marks_invariants_single_and_bulk.2 freshMark [] dbMarks bulkResOk dbMarksAfterBulk rfl⟩

/-!  ## C6 -/

/-- C6: a parent caller with a parent profile and a non-empty set of
linked children, listing fees without a student_id filter (and with no
status or year filter), receives exactly the fee rows whose student_id
belongs to one of their children — the union over all children — and no
other student's rows. -/
theorem get_fees_parent_sees_exactly_children
    (u : TokenPayload) (db : DB) (p : ParentRec)
    (hrole : u.role = .parent)
    (hp : selectParentByUser db u.sub = some p)
    (hkids : (selectLinksByParent db p.parent_id).map (·.student_id) ≠ []) :
    ∃ result : List FeeRec, get_fees none none none u db = .ok result ∧
      ∀ f : FeeRec, f ∈ result ↔
        (f ∈ db.fees ∧
          f.student_id ∈ (selectLinksByParent db p.parent_id).map (·.student_id)) := by
  have hfilter : db.fees.filter
      (feeMatches { student_id := none, status := none, academic_year := none }) =
      db.fees :=
    List.filter_eq_self.mpr (fun f _ => feeMatches_none f)
  simp only [get_fees, hrole, hp]
  rw [if_neg hkids]
  simp only
  rw [if_neg hkids, hfilter]
  refine ⟨_, rfl, ?_⟩
  intro f
  simp [List.mem_filter]

/-- C6 witness: parent p1 (children s1 and s2) listing fees over a store
holding fees of s1, s2 and s3 gets exactly the rows of s1 and s2. -/
theorem get_fees_parent_sees_exactly_children_witness :
    ∃ result : List FeeRec, get_fees none none none userParent dbParentFees = .ok result ∧
      ∀ f : FeeRec, f ∈ result ↔
        (f ∈ dbParentFees.fees ∧
          f.student_id ∈ (selectLinksByParent dbParentFees par1.parent_id).map
            (·.student_id)) :=
  get_fees_parent_sees_exactly_children userParent dbParentFees par1 rfl rfl (by decide)

/-!  ## C7 -/

/-- C7 counterexample: when the store's update call fails, the 500
response detail is not independent of the internal error text — the text
is embedded verbatim after a fixed prefix, so two different store errors
yield two different client-facing details. -/
theorem record_payment_500_detail_depends_on_store_error_cex :
    ((record_payment pay30 "t0" (some "secret store text") dbFees).1 =
      .error ⟨500, "Failed to record payment: Failed to update fees: secret store text"⟩) ∧
    ((record_payment pay30 "t0" (some "redacted") dbFees).1 =
      .error ⟨500, "Failed to record payment: Failed to update fees: redacted"⟩) ∧
    (HttpError.mk 500 "Failed to record payment: Failed to update fees: secret store text" ≠
      HttpError.mk 500 "Failed to record payment: Failed to update fees: redacted") := by
  have hfee : selectFeeById dbFees pay30.fee_id = some fee1 := by decide
  have hok : ¬ fee1.amount_paid + pay30.amount_paid > fee1.amount := by
    norm_num [fee1, pay30]
  refine ⟨?_, ?_, by decide⟩ <;>
  · simp only [record_payment, hfee]
    rw [if_neg hok]
    rfl

/-- C7 amended: an unexpected store failure during record_payment is
surfaced as a 500 whose detail is the fixed prefix followed by the
gateway-wrapped internal error text — the status is generic but the
internal store error text is leaked into the client-facing detail (it is
also logged server-side). -/
theorem record_payment_500_embeds_store_error
    (payment_data : FeePayment) (now msg : String) (db : DB) (fee : FeeRec)
    (hfee : selectFeeById db payment_data.fee_id = some fee)
    (hok : ¬ fee.amount_paid + payment_data.amount_paid > fee.amount) :
    record_payment payment_data now (some msg) db =
      (.error ⟨500, "Failed to record payment: Failed to update fees: " ++ msg⟩, db) := by
  simp only [record_payment, hfee]
  rw [if_neg hok]

/-- C7 witness: a concrete in-balance payment whose update call fails
with "secret store text" produces exactly the leaking 500 detail. -/
theorem record_payment_500_embeds_store_error_witness :
    record_payment pay30 "t0" (some "secret store text") dbFees =
      (.error ⟨500, "Failed to record payment: Failed to update fees: secret store text"⟩,
        dbFees) :=
  record_payment_500_embeds_store_error pay30 "t0" "secret store text" dbFees fee1
    (by decide) (by norm_num [fee1, pay30])

/-!  ## C8 -/

/-- When a store holds at most one attendance row per pair, so does the
concrete fixture store dbAtt (helper for the C8 witness). -/
theorem dbAtt_at_most_one_per_pair : ∀ sid dt, attendanceCount dbAtt sid dt ≤ 1 := by
  intro sid dt
  simp only [attendanceCount, selectAttendanceByStudentDate]
  exact le_trans (List.length_filter_le _ _) (by decide)

/-- C8: for an authorised caller an attendance create whose
(student_id, date) pair is already present is rejected with a 400-class
conflict and no insert happens; and every mark_attendance call preserves
the at-most-one-row-per-pair invariant, so no sequence of calls can push
a pair's stored count above 1. -/
theorem mark_attendance_unique_per_pair :
    (∀ (d : AttendanceCreate) (u : TokenPayload) (db : DB),
        u.role ∈ [UserRole.teacher, UserRole.admin, UserRole.master] →
        selectAttendanceByStudentDate db d.student_id d.date ≠ [] →
        mark_attendance d u db =
          (.error ⟨400, "Attendance already marked for this date"⟩, db)) ∧
    (∀ (d : AttendanceCreate) (u : TokenPayload) (db : DB),
        (∀ sid dt, attendanceCount db sid dt ≤ 1) →
        ∀ sid dt, attendanceCount (mark_attendance d u db).2 sid dt ≤ 1) := by
  constructor
  · intro d u db hrole hdup
    simp only [mark_attendance]
    rw [if_neg (not_not_intro hrole), if_pos hdup]
  · intro d u db hinv sid dt
    simp only [mark_attendance]
    by_cases hmem : u.role ∈ [UserRole.teacher, UserRole.admin, UserRole.master]
    · rw [if_neg (not_not_intro hmem)]
      by_cases hex : selectAttendanceByStudentDate db d.student_id d.date ≠ []
      · rw [if_pos hex]
        exact hinv sid dt
      · rw [if_neg hex]
        have hempty : db.attendance.filter
            (fun a => a.student_id == d.student_id && a.date == d.date) = [] := by
          simpa [selectAttendanceByStudentDate] using not_not.mp hex
        simp only [attendanceCount, selectAttendanceByStudentDate, List.filter_append,
          List.length_append]
        by_cases hp : (d.student_id == sid && d.date == dt) = true
        · simp only [Bool.and_eq_true, beq_iff_eq] at hp
          obtain ⟨hp1, hp2⟩ := hp
          subst hp1
          subst hp2
          simp [hempty]
        · have hsingle : List.filter (fun a => a.student_id == sid && a.date == dt)
              [({ attendance_id := db.genId, student_id := d.student_id, date := d.date,
                  status := d.status.value, remarks := d.remarks } : AttendanceRec)] = [] := by
            simp only [List.filter, hp]
          rw [hsingle]
          simpa [attendanceCount, selectAttendanceByStudentDate] using hinv sid dt
    · rw [if_pos hmem]
      exact hinv sid dt

/-- C8 witness: a duplicate create for (s1, 2026-01-05) is rejected with
the store untouched, and after inserting (s1, 2026-01-06) the stored
count for (s1, 2026-01-05) is still at most 1. -/
theorem mark_attendance_unique_per_pair_witness :
    mark_attendance attDup userTeacher dbAtt =
      (.error ⟨400, "Attendance already marked for this date"⟩, dbAtt) ∧
    attendanceCount (mark_attendance attNew userTeacher dbAtt).2 "s1" "2026-01-05" ≤ 1 :=
  ⟨mark_attendance_unique_per_pair.1 attDup userTeacher dbAtt (by decide) (by decide),
   mark_attendance_unique_per_pair.2 attNew userTeacher dbAtt dbAtt_at_most_one_per_pair
     "s1" "2026-01-05"⟩

/-!  ## C9 -/

/-- C9: verify_token accepts any token signed with the right key,
unexpired, and carrying sub and role claims; the type claim is never
read, so verification gives the same verdict for any type value, and the
refresh endpoint therefore mints a fresh access token and a fresh
refresh token from an access token exactly as it does from a refresh
token. -/
theorem verify_token_ignores_type_and_refresh_accepts_access
    (key sub roleStr : String) (role : UserRole) (typ typ2 : String) (e now : Nat)
    (hrole : UserRole.ofString roleStr = some role)
    (hexp : now < e) :
    verify_token ⟨key, ⟨some sub, some roleStr, typ, e⟩⟩ key now = .ok ⟨sub, role, e⟩ ∧
    verify_token ⟨key, ⟨some sub, some roleStr, typ, e⟩⟩ key now =
      verify_token ⟨key, ⟨some sub, some roleStr, typ2, e⟩⟩ key now ∧
    refresh_token ⟨key, ⟨some sub, some roleStr, typ, e⟩⟩ key now =
      .ok ⟨create_access_token sub role.value key now,
           create_refresh_token sub role.value key now, "bearer",
           ACCESS_TOKEN_EXPIRE_MINUTES * 60⟩ := by
  have hcond : ¬(key ≠ key ∨ e ≤ now) := by
    push_neg
    exact ⟨rfl, hexp⟩
  have h1 : verify_token ⟨key, ⟨some sub, some roleStr, typ, e⟩⟩ key now =
      .ok ⟨sub, role, e⟩ := by
    simp only [verify_token]
    rw [if_neg hcond]
    simp [hrole]
  have h2 : verify_token ⟨key, ⟨some sub, some roleStr, typ2, e⟩⟩ key now =
      .ok ⟨sub, role, e⟩ := by
    simp only [verify_token]
    rw [if_neg hcond]
    simp [hrole]
  refine ⟨h1, h1.trans h2.symm, ?_⟩
  simp only [refresh_token, h1]

/-- C9 witness: a token with type "access" (signed with the right key,
unexpired, with sub and role) is verified and the refresh endpoint
answers it with a fresh access/refresh pair. -/
theorem verify_token_ignores_type_witness :
    verify_token ⟨"k", ⟨some "u1", some "student", "access", 1000⟩⟩ "k" 10 =
      .ok ⟨"u1", .student, 1000⟩ ∧
    verify_token ⟨"k", ⟨some "u1", some "student", "access", 1000⟩⟩ "k" 10 =
      verify_token ⟨"k", ⟨some "u1", some "student", "refresh", 1000⟩⟩ "k" 10 ∧
    refresh_token ⟨"k", ⟨some "u1", some "student", "access", 1000⟩⟩ "k" 10 =
      .ok ⟨create_access_token "u1" UserRole.student.value "k" 10,
           create_refresh_token "u1" UserRole.student.value "k" 10, "bearer",
           ACCESS_TOKEN_EXPIRE_MINUTES * 60⟩ :=
  verify_token_ignores_type_and_refresh_accepts_access "k" "u1" "student" .student
    "access" "refresh" 1000 10 rfl (by decide)

/-!  ## C10 -/

/-- C10: a caller whose token says parent but who has no parents row
makes get_mark (on an existing mark) dereference the missing profile —
the generic 500 handler answers, not the 403 authorization branch. -/
theorem get_mark_parent_without_profile_hits_500
    (mid : String) (u : TokenPayload) (db : DB) (mark : MarkRec)
    (hrole : u.role = .parent)
    (hmark : selectMarkById db mid = some mark)
    (hnoprof : selectParentByUser db u.sub = none) :
    get_mark mid u db =
      .error ⟨500, "Failed to retrieve mark: 'NoneType' object is not subscriptable"⟩ ∧
    ∀ e, get_mark mid u db = .error e → e.statusCode ≠ 403 := by
  have h : get_mark mid u db =
      .error ⟨500, "Failed to retrieve mark: 'NoneType' object is not subscriptable"⟩ := by
    simp only [get_mark, hmark, hrole, hnoprof]
  refine ⟨h, fun e he => ?_⟩
  rw [h] at he
  cases he
  decide

/-- C10 witness: parent caller u-p with no parents row requesting the
existing mark m0 ends in the 500 handler, not a 403. -/
theorem get_mark_parent_without_profile_hits_500_witness :
    get_mark "m0" userParent dbMarksNoParent =
      .error ⟨500, "Failed to retrieve mark: 'NoneType' object is not subscriptable"⟩ ∧
    ∀ e, get_mark "m0" userParent dbMarksNoParent = .error e → e.statusCode ≠ 403 :=
  get_mark_parent_without_profile_hits_500 "m0" userParent dbMarksNoParent mark0
    rfl (by decide) rfl
